import Mathlib

/-!
Shallow embedding of the account security core of the repository: the User
schema (the variant whose toJSON options are at validation.middleware.js
lines 504-508), its instance methods (isLocked, incLoginAttempts,
comparePassword, changedPasswordAfter, createPasswordResetToken), and the
auth controller operations (createSendToken, login, refreshToken,
resetPassword, changePassword).

Conventions:
- All wall-clock values are `Nat` milliseconds since epoch, as JS
  `Date.now()`; JWT claim timestamps (iat, exp) are seconds, as in the JWT
  standard, so loaders divide by 1000 where the source does.
- Cryptographic primitives (SHA-256, bcrypt) are modelled as injective tag
  functions: their collision behaviour is not the subject of any verified
  property, only the equality tests the source performs on their outputs.
- `Option` models an unset (undefined) document path: Mongoose omits such
  paths from JSON output and they are falsy in the guards of the source.
-/

namespace AccountCore

/-- SHA-256, modelled as an injective tag function (the source only ever
compares digests for equality). -/
def sha256 (s : String) : String := "sha256$" ++ s

/-- The bcrypt hash written by the pre-save hook (bcrypt.hash with a cost-12
salt), modelled as an injective tag function. -/
def bcryptHash (s : String) : String := "bcrypt12$" ++ s

/-- The bcrypt.compare used by userSchema.methods.comparePassword: true iff
the digest is the hash of the candidate. -/
def bcryptCompare (candidate digest : String) : Bool :=
  digest == bcryptHash candidate

/-- The lock duration hardcoded in incLoginAttempts: 15 minutes in
milliseconds. -/
def lockTimeMs : Nat := 15 * 60 * 1000

/-- The attempt threshold hardcoded in incLoginAttempts. -/
def maxLoginAttempts : Nat := 5

/-- The security-relevant fields of the durable User document. -/
structure Account where
  id : Nat
  email : String
  password : String
  passwordChangedAt : Option Nat := none
  passwordResetToken : Option String := none
  passwordResetExpires : Option Nat := none
  verificationToken : Option String := none
  verificationExpires : Option Nat := none
  isActive : Bool := true
  isVerified : Bool := false
  loginAttempts : Nat := 0
  lockUntil : Option Nat := none
  lastLogin : Option Nat := none
  lastPasswordChange : Option Nat := none
  loginCount : Nat := 0
  deriving Repr, DecidableEq

/-- userSchema.methods.isLocked: true iff lockUntil is set and lies in the
future (lockUntil > Date.now()). -/
def isLocked (a : Account) (now : Nat) : Bool :=
  match a.lockUntil with
  | some u => decide (now < u)
  | none => false

/-- The guard of the first branch of incLoginAttempts: lockUntil is set and
strictly in the past (lockUntil < Date.now()). -/
def lockExpired (a : Account) (now : Nat) : Bool :=
  match a.lockUntil with
  | some u => decide (u < now)
  | none => false

/-- userSchema.methods.incLoginAttempts: on an expired lock, reset the
counter to 1 and unset the lock; otherwise increment the counter, and when
the post-increment count reaches 5 while not currently locked, set
lockUntil to now + 15 minutes. -/
def incLoginAttempts (a : Account) (now : Nat) : Account :=
  if lockExpired a now then
    { a with loginAttempts := 1, lockUntil := none }
  else if a.loginAttempts + 1 ≥ maxLoginAttempts && !(isLocked a now) then
    { a with loginAttempts := a.loginAttempts + 1,
             lockUntil := some (now + lockTimeMs) }
  else
    { a with loginAttempts := a.loginAttempts + 1 }

/-- userSchema.methods.changedPasswordAfter: when passwordChangedAt is set,
true iff the JWT timestamp (seconds) precedes the change time truncated to
seconds; false when passwordChangedAt was never set. -/
def changedPasswordAfter (a : Account) (jwtTimestampSec : Nat) : Bool :=
  match a.passwordChangedAt with
  | some pc => decide (jwtTimestampSec < pc / 1000)
  | none => false

/-- The User document as it is serialized to a JSON response body under the
cited schema options (toJSON: virtuals only, no transform): every
materialized path appears in the output, so a field is present in the JSON
exactly when it is `some`. Paths with select:false (password,
loginAttempts, lockUntil) are present only when a query selected them. -/
structure UserJson where
  id : Nat
  email : String
  password : Option String
  passwordChangedAt : Option Nat
  passwordResetToken : Option String
  passwordResetExpires : Option Nat
  verificationToken : Option String
  verificationExpires : Option Nat
  isActive : Bool
  isVerified : Bool
  loginAttempts : Option Nat
  lockUntil : Option Nat
  lastLogin : Option Nat
  lastPasswordChange : Option Nat
  loginCount : Nat
  deriving Repr, DecidableEq

/-- A User document loaded by a default query (no select override): the
select:false paths password, loginAttempts and lockUntil are absent; every
other set path is materialized. -/
def loadDefault (a : Account) : UserJson :=
  { id := a.id, email := a.email, password := none,
    passwordChangedAt := a.passwordChangedAt,
    passwordResetToken := a.passwordResetToken,
    passwordResetExpires := a.passwordResetExpires,
    verificationToken := a.verificationToken,
    verificationExpires := a.verificationExpires,
    isActive := a.isActive, isVerified := a.isVerified,
    loginAttempts := none, lockUntil := none,
    lastLogin := a.lastLogin, lastPasswordChange := a.lastPasswordChange,
    loginCount := a.loginCount }

/-- The User document as loaded by login's query
findOne(..).select of +password +loginAttempts +lockUntil. -/
def loadForLogin (a : Account) : UserJson :=
  { loadDefault a with
      password := some a.password,
      loginAttempts := some a.loginAttempts,
      lockUntil := a.lockUntil }

/-- The user object placed in the JSON body by createSendToken: the only
field it removes is password (user.password = undefined); everything else
present on the document is serialized as-is, since the cited schema's
toJSON options carry no stripping transform. -/
def createSendTokenUser (u : UserJson) : UserJson :=
  { u with password := none }

/-- Typed failures surfaced by the login controller. -/
inductive AuthFailure
  | missingFields
  | invalidCredentials
  | accountLocked
  deriving Repr, DecidableEq

/-- The outcome of the login controller: either the JSON body user (token
pair omitted; token minting is modelled separately) or a typed failure. -/
inductive LoginResult
  | success (user : UserJson)
  | failure (e : AuthFailure)
  deriving Repr, DecidableEq

/-- The login controller: guard on a missing password, 401 when no account
matches the email, 401 AccountLocked when isLocked, on a wrong password
record the failure via incLoginAttempts then 401, and on success reset the
counters in the store ($set loginAttempts 0 and lastLogin, $inc loginCount,
$unset lockUntil), stamp lastLogin on the in-memory document, and serialize
that in-memory document via createSendToken. The in-memory document still
carries the pre-reset loginAttempts and lockUntil values because the
counter reset is a direct store update, not a document mutation. -/
def login (acct : Option Account) (password : String) (now : Nat) :
    LoginResult × Option Account :=
  if password = "" then (.failure .missingFields, acct)
  else
    match acct with
    | none => (.failure .invalidCredentials, none)
    | some a =>
      if isLocked a now then (.failure .accountLocked, some a)
      else if !(bcryptCompare password a.password) then
        (.failure .invalidCredentials, some (incLoginAttempts a now))
      else
        let stored := { a with loginAttempts := 0, lastLogin := some now,
                               loginCount := a.loginCount + 1, lockUntil := none }
        let doc := { loadForLogin a with lastLogin := some now }
        (.success (createSendTokenUser doc), some stored)

/-- The controller outcome of a login against an existing account. -/
def loginRes (a : Account) (password : String) (now : Nat) : LoginResult :=
  (login (some a) password now).1

/-- The stored account state after a login against an existing account
(login never deletes the account, so the getD default is never used). -/
def loginState (a : Account) (password : String) (now : Nat) : Account :=
  ((login (some a) password now).2).getD a

/-- The stored account state after a sequence of login attempts with the
given password at the given times. -/
def afterFailures (a : Account) (pw : String) (ts : List Nat) : Account :=
  ts.foldl (fun s t => loginState s pw t) a

/-- A concrete registered account used by concrete instances: fresh, with
no failed attempts and no lock. -/
def freshAcct : Account :=
  { id := 1, email := "a@x.com", password := bcryptHash "Passw0rd1" }

/-- A signed JWT as the source mints it: jwt.sign of a payload carrying the
account id, an issued-at and an expiry claim (seconds), under a signing
secret. A token verifies under a key iff it was signed with that key and
its expiry lies in the future; tampering is outside the model since the
claims only concern tokens the system itself minted. -/
structure SignedToken where
  sub : Nat
  iat : Nat
  exp : Nat
  key : String
  deriving Repr, DecidableEq

/-- The access-token signing secret (config.JWT_SECRET). -/
def jwtSecret : String := "JWT_SECRET"

/-- The refresh-token signing secret (config.JWT_REFRESH_SECRET). -/
def jwtRefreshSecret : String := "JWT_REFRESH_SECRET"

/-- Access-token lifetime: config.JWT_EXPIRES_IN, default 7d, in seconds. -/
def jwtExpiresInSec : Nat := 7 * 24 * 60 * 60

/-- Refresh-token lifetime: config.JWT_REFRESH_EXPIRES_IN, default 30d, in
seconds. -/
def jwtRefreshExpiresInSec : Nat := 30 * 24 * 60 * 60

/-- generateToken: jwt.sign of the account id under JWT_SECRET with the
configured expiry; nowMs is Date.now() at signing. -/
def generateToken (userId : Nat) (nowMs : Nat) : SignedToken :=
  { sub := userId, iat := nowMs / 1000, exp := nowMs / 1000 + jwtExpiresInSec,
    key := jwtSecret }

/-- generateRefreshToken: jwt.sign of the account id under
JWT_REFRESH_SECRET with the configured refresh expiry. -/
def generateRefreshToken (userId : Nat) (nowMs : Nat) : SignedToken :=
  { sub := userId, iat := nowMs / 1000, exp := nowMs / 1000 + jwtRefreshExpiresInSec,
    key := jwtRefreshSecret }

/-- jwt.verify against a key: succeeds iff the token was signed with that
key and has not expired. -/
def jwtVerify (t : SignedToken) (key : String) (nowMs : Nat) : Bool :=
  t.key == key && decide (nowMs / 1000 < t.exp)

/-- User.findById over the store. -/
def findById (store : List Account) (id : Nat) : Option Account :=
  store.find? (fun a => a.id == id)

/-- The outcome of the refreshToken controller. The source has exactly
these exits: missing cookie, jwt.verify failure (caught and mapped to the
401 Invalid refresh token), account gone, or success with a freshly minted
access and refresh pair. No staleness exit exists in the source. -/
inductive RefreshResult
  | success (token refreshTok : SignedToken)
  | noToken
  | invalidToken
  | userGone
  deriving Repr, DecidableEq

/-- The refreshToken controller: read the cookie, jwt.verify it under
JWT_REFRESH_SECRET, load the account by the token subject, and on success
mint and return a new access and refresh token pair. -/
def refreshTokenOp (store : List Account) (cookie : Option SignedToken) (now : Nat) :
    RefreshResult :=
  match cookie with
  | none => .noToken
  | some t =>
    if !(jwtVerify t jwtRefreshSecret now) then .invalidToken
    else
      match findById store t.sub with
      | none => .userGone
      | some a => .success (generateToken a.id now) (generateRefreshToken a.id now)

/-- The findOne condition of resetPassword: the stored reset digest equals
the hash of the presented token and the stored expiry is strictly in the
future (passwordResetExpires $gt Date.now()); an unset expiry never
matches. -/
def resetTokenMatches (a : Account) (hashedToken : String) (now : Nat) : Bool :=
  a.passwordResetToken == some hashedToken &&
    (match a.passwordResetExpires with
     | some e => decide (now < e)
     | none => false)

/-- User.findOne over the store by the reset-token condition. -/
def findByResetToken (store : List Account) (hashedToken : String) (now : Nat) :
    Option Account :=
  store.find? (fun a => resetTokenMatches a hashedToken now)

/-- The account as saved by a successful resetPassword: the new password is
bcrypt-hashed by the pre-save hook, the reset artifact is cleared,
lastPasswordChange is stamped with now, and the passwordChangedAt pre-save
hook backdates the change marker by one second. -/
def afterReset (a : Account) (newPassword : String) (now : Nat) : Account :=
  { a with password := bcryptHash newPassword,
           passwordResetToken := none,
           passwordResetExpires := none,
           lastPasswordChange := some now,
           passwordChangedAt := some (now - 1000) }

/-- The outcome of the resetPassword controller: the 400 invalid-or-expired
failure, or success with the JSON body user from createSendToken. -/
inductive ResetResult
  | success (user : UserJson)
  | invalidOrExpired
  deriving Repr, DecidableEq

/-- The resetPassword controller: hash the presented token, find the
account whose stored digest matches with an unexpired expiry, and either
fail 400 or save the new credential state and respond through
createSendToken. The document was loaded by a default findOne, so the
serialized body carries the default selection. -/
def resetPassword (store : List Account) (token newPassword : String) (now : Nat) :
    ResetResult × List Account :=
  let hashedToken := sha256 token
  match findByResetToken store hashedToken now with
  | none => (.invalidOrExpired, store)
  | some a =>
    let saved := afterReset a newPassword now
    (.success (createSendTokenUser (loadDefault saved)),
     store.map (fun b => if b.id == a.id then saved else b))

/-- The outcome of the changePassword controller. -/
inductive ChangeResult
  | success
  | wrongCurrentPassword
  deriving Repr, DecidableEq

/-- The changePassword controller: re-verify the current password against
the stored hash via comparePassword; on failure answer 401 leaving the
account untouched; on success save the bcrypt hash of the new password,
stamp lastPasswordChange with now, and let the pre-save hook set
passwordChangedAt to one second before now. -/
def changePassword (a : Account) (currentPassword newPassword : String) (now : Nat) :
    ChangeResult × Account :=
  if !(bcryptCompare currentPassword a.password) then
    (.wrongCurrentPassword, a)
  else
    (.success,
      { a with password := bcryptHash newPassword,
               lastPasswordChange := some now,
               passwordChangedAt := some (now - 1000) })

/-- A concrete account as login loads it after an expired lock with
residual failed attempts and a pending reset artifact: every field the
spec says must never be serialized is populated. -/
def leakAcct : Account :=
  { id := 9, email := "a@x.com", password := bcryptHash "Passw0rd1",
    loginAttempts := 3, lockUntil := some 1000,
    passwordResetToken := some (sha256 "rt"), passwordResetExpires := some 999999 }

/-- A concrete account whose password was changed at 5000000ms, so at
JWT-second 5000. -/
def staleAcct : Account :=
  { id := 7, email := "s@x.com", password := bcryptHash "NewPassw0rd1",
    passwordChangedAt := some 5000000 }

/-- A concrete refresh token for staleAcct minted before its password
change: issued at JWT-second 10, well before the change at second 5000. -/
def staleTok : SignedToken :=
  { sub := 7, iat := 10, exp := 10 + jwtRefreshExpiresInSec, key := jwtRefreshSecret }

/-- A concrete account holding a reset token issued at t0 = 0 with the
10-minute TTL, so passwordResetExpires = 600000. -/
def resetBoundaryAcct : Account :=
  { id := 3, email := "b@x.com", password := bcryptHash "OldPassw0rd1",
    passwordResetToken := some (sha256 "tok"), passwordResetExpires := some 600000 }

/-- The findOne condition of the verifyEmail controller: the stored
verification digest equals the hash of the presented token and the stored
expiry is strictly in the future (verificationExpires $gt Date.now()); an
unset expiry never matches. -/
def verifyTokenMatches (a : Account) (hashedToken : String) (now : Nat) : Bool :=
  a.verificationToken == some hashedToken &&
    (match a.verificationExpires with
     | some e => decide (now < e)
     | none => false)

/-- User.findOne over the store by the verification-token condition. -/
def findByVerifyToken (store : List Account) (hashedToken : String) (now : Nat) :
    Option Account :=
  store.find? (fun a => verifyTokenMatches a hashedToken now)

/-- The account as saved by a successful verifyEmail: isVerified is set and
the verification artifact is cleared. -/
def afterVerify (a : Account) : Account :=
  { a with isVerified := true,
           verificationToken := none,
           verificationExpires := none }

/-- The outcome of the verifyEmail controller: the 400 invalid-or-expired
failure, or the 200 verified-successfully response (no user body). -/
inductive VerifyResult
  | verified
  | invalidOrExpired
  deriving Repr, DecidableEq

/-- The verifyEmail controller: hash the presented token, find the account
whose stored verification digest matches with an unexpired expiry, and
either fail 400 or mark the account verified and clear the artifact. -/
def verifyEmail (store : List Account) (token : String) (now : Nat) :
    VerifyResult × List Account :=
  let hashedToken := sha256 token
  match findByVerifyToken store hashedToken now with
  | none => (.invalidOrExpired, store)
  | some a => (.verified, store.map (fun b => if b.id == a.id then afterVerify a else b))

/-- A concrete unverified account holding a verification token issued at
t0 = 0 with the 24-hour TTL, so verificationExpires = 86400000. -/
def verifyBoundaryAcct : Account :=
  { id := 5, email := "v@x.com", password := bcryptHash "Passw0rd1",
    verificationToken := some (sha256 "vtok"), verificationExpires := some 86400000 }

end AccountCore

namespace AccountCore

/-- Claim C4 (amended form): on a failed credential check while the stored
lock timestamp is strictly in the past (lockUntil < now), incLoginAttempts
resets the counter to exactly 1 and clears the lock. -/
theorem c4_expired_lock_resets_to_one (a : Account) (u now : Nat)
    (hu : a.lockUntil = some u) (hlt : u < now) :
    incLoginAttempts a now = { a with loginAttempts := 1, lockUntil := none } := by
  simp [incLoginAttempts, lockExpired, hu, hlt]

/-- Witness for c4_expired_lock_resets_to_one at a concrete account. -/
theorem c4_expired_lock_resets_to_one_witness :
    ({ id := 1, email := "a@x.com", password := bcryptHash "Passw0rd1",
       loginAttempts := 4, lockUntil := some 100 } : Account).lockUntil = some 100 ∧
    (100 : Nat) < 200 ∧
    incLoginAttempts
      { id := 1, email := "a@x.com", password := bcryptHash "Passw0rd1",
        loginAttempts := 4, lockUntil := some 100 } 200
      = { id := 1, email := "a@x.com", password := bcryptHash "Passw0rd1",
          loginAttempts := 1, lockUntil := none } :=
  ⟨rfl, by decide,
    c4_expired_lock_resets_to_one
      { id := 1, email := "a@x.com", password := bcryptHash "Passw0rd1",
        loginAttempts := 4, lockUntil := some 100 } 100 200 rfl (by decide)⟩

/-- Counterexample to claim C4 as stated: at the boundary until = now the
claim requires the transition to Unlocked(attempts = 1) with the lock
cleared, but incLoginAttempts takes the increment branch (the source guard
is the strict lockUntil < now), leaving attempts at 3 and the stale lock
timestamp in place. -/
theorem c4_boundary_counterexample :
    incLoginAttempts
        { id := 1, email := "a@x.com", password := bcryptHash "Passw0rd1",
          loginAttempts := 2, lockUntil := some 100 } 100
      = { id := 1, email := "a@x.com", password := bcryptHash "Passw0rd1",
          loginAttempts := 3, lockUntil := some 100 } ∧
    ¬ (incLoginAttempts
        { id := 1, email := "a@x.com", password := bcryptHash "Passw0rd1",
          loginAttempts := 2, lockUntil := some 100 } 100
      = { id := 1, email := "a@x.com", password := bcryptHash "Passw0rd1",
          loginAttempts := 1, lockUntil := none }) := by
  constructor
  · decide
  · decide

/-- Claim C9: while the account is locked (lockUntil > now), a further
failed attempt increments the counter but leaves the lock timestamp
exactly as it was: the window is never extended or re-triggered. -/
theorem c9_lock_window_fixed (a : Account) (u now : Nat)
    (hu : a.lockUntil = some u) (hnow : now < u) :
    (incLoginAttempts a now).lockUntil = some u ∧
    (incLoginAttempts a now).loginAttempts = a.loginAttempts + 1 := by
  have hne : ¬ (u < now) := by omega
  simp [incLoginAttempts, lockExpired, isLocked, hu, hne, hnow]

/-- Witness for c9_lock_window_fixed at a concrete locked account. -/
theorem c9_lock_window_fixed_witness :
    ({ id := 2, email := "b@x.com", password := bcryptHash "Passw0rd1",
       loginAttempts := 6, lockUntil := some 900100 } : Account).lockUntil = some 900100 ∧
    (50 : Nat) < 900100 ∧
    (incLoginAttempts
      { id := 2, email := "b@x.com", password := bcryptHash "Passw0rd1",
        loginAttempts := 6, lockUntil := some 900100 } 50).lockUntil = some 900100 ∧
    (incLoginAttempts
      { id := 2, email := "b@x.com", password := bcryptHash "Passw0rd1",
        loginAttempts := 6, lockUntil := some 900100 } 50).loginAttempts = 7 :=
  ⟨rfl, by decide,
    (c9_lock_window_fixed
      { id := 2, email := "b@x.com", password := bcryptHash "Passw0rd1",
        loginAttempts := 6, lockUntil := some 900100 } 900100 50 rfl (by decide)).1,
    (c9_lock_window_fixed
      { id := 2, email := "b@x.com", password := bcryptHash "Passw0rd1",
        loginAttempts := 6, lockUntil := some 900100 } 900100 50 rfl (by decide)).2⟩

/-- Helper: a login with a wrong, non-empty password against an unlocked
account reports InvalidCredentials. -/
theorem loginRes_wrong_password (a : Account) (bad : String) (t : Nat)
    (hbad : bcryptCompare bad a.password = false) (hne : bad ≠ "")
    (hnl : isLocked a t = false) :
    loginRes a bad t = .failure .invalidCredentials := by
  simp [loginRes, login, hne, hnl, hbad]

/-- Helper: a failed login against an unlocked account stores the
incLoginAttempts update. -/
theorem loginState_wrong_password (a : Account) (bad : String) (t : Nat)
    (hbad : bcryptCompare bad a.password = false) (hne : bad ≠ "")
    (hnl : isLocked a t = false) :
    loginState a bad t = incLoginAttempts a t := by
  simp [loginState, login, hne, hnl, hbad]

/-- Helper: below the threshold, a failed attempt with no lock set only
increments the counter. -/
theorem incLoginAttempts_below (a : Account) (t : Nat) (hnl : a.lockUntil = none)
    (hlt : a.loginAttempts + 1 < maxLoginAttempts) :
    incLoginAttempts a t = { a with loginAttempts := a.loginAttempts + 1 } := by
  have h1 : lockExpired a t = false := by simp [lockExpired, hnl]
  have h2 : (a.loginAttempts + 1 ≥ maxLoginAttempts && !(isLocked a t)) = false := by
    simp [isLocked, hnl]; omega
  simp [incLoginAttempts, h1, h2]

/-- Helper: at the threshold, a failed attempt with no lock set increments
the counter and sets the 15-minute lock. -/
theorem incLoginAttempts_threshold (a : Account) (t : Nat) (hnl : a.lockUntil = none)
    (hge : a.loginAttempts + 1 ≥ maxLoginAttempts) :
    incLoginAttempts a t = { a with loginAttempts := a.loginAttempts + 1,
                                    lockUntil := some (t + lockTimeMs) } := by
  have h1 : lockExpired a t = false := by simp [lockExpired, hnl]
  have h2 : (a.loginAttempts + 1 ≥ maxLoginAttempts && !(isLocked a t)) = true := by
    simp [isLocked, hnl]; omega
  simp [incLoginAttempts, h1, h2]

/-- Helper: a login against a currently locked account fails AccountLocked
without touching the stored state. -/
theorem login_locked_res (a : Account) (pw : String) (t u : Nat) (hne : pw ≠ "")
    (hu : a.lockUntil = some u) (ht : t < u) :
    loginRes a pw t = .failure .accountLocked ∧ loginState a pw t = a := by
  have hl : isLocked a t = true := by simp [isLocked, hu]; exact ht
  simp [loginRes, loginState, login, hne, hl]

/-- Helper: a correct-password login against an unlocked account succeeds,
serializes the in-memory document (with only password removed), and stores
the reset counters. -/
theorem login_success_res (a : Account) (pw : String) (t : Nat) (hne : pw ≠ "")
    (hnl : isLocked a t = false) (hpw : bcryptCompare pw a.password = true) :
    loginRes a pw t = .success (createSendTokenUser { loadForLogin a with lastLogin := some t }) ∧
    (loginState a pw t).loginAttempts = 0 ∧
    (loginState a pw t).lockUntil = none := by
  simp [loginRes, loginState, login, hne, hnl, hpw]

/-- Claim C3: from an unlocked account with zero failed attempts, five
consecutive failed logins each report InvalidCredentials and leave the
account locked for 15 minutes from the fifth failure with the counter at
5; a sixth, correct-password login inside the window fails AccountLocked
and changes nothing; a correct-password login after the window succeeds,
resets the counter to 0 and clears the lock. -/
theorem c3_five_failures_lock_then_recover (a : Account) (good bad : String)
    (t1 t2 t3 t4 t5 t6 t7 : Nat)
    (h0 : a.loginAttempts = 0) (hL : a.lockUntil = none)
    (hgood : bcryptCompare good a.password = true)
    (hbad : bcryptCompare bad a.password = false)
    (hbne : bad ≠ "") (hgne : good ≠ "")
    (h6 : t6 < t5 + lockTimeMs) (h7 : t5 + lockTimeMs < t7) :
    loginRes a bad t1 = .failure .invalidCredentials ∧
    loginRes (afterFailures a bad [t1]) bad t2 = .failure .invalidCredentials ∧
    loginRes (afterFailures a bad [t1, t2]) bad t3 = .failure .invalidCredentials ∧
    loginRes (afterFailures a bad [t1, t2, t3]) bad t4 = .failure .invalidCredentials ∧
    loginRes (afterFailures a bad [t1, t2, t3, t4]) bad t5 = .failure .invalidCredentials ∧
    (afterFailures a bad [t1, t2, t3, t4, t5]).lockUntil = some (t5 + lockTimeMs) ∧
    (afterFailures a bad [t1, t2, t3, t4, t5]).loginAttempts = 5 ∧
    loginRes (afterFailures a bad [t1, t2, t3, t4, t5]) good t6 = .failure .accountLocked ∧
    loginState (afterFailures a bad [t1, t2, t3, t4, t5]) good t6
      = afterFailures a bad [t1, t2, t3, t4, t5] ∧
    loginRes (afterFailures a bad [t1, t2, t3, t4, t5]) good t7
      = .success (createSendTokenUser
          { loadForLogin (afterFailures a bad [t1, t2, t3, t4, t5]) with lastLogin := some t7 }) ∧
    (loginState (afterFailures a bad [t1, t2, t3, t4, t5]) good t7).loginAttempts = 0 ∧
    (loginState (afterFailures a bad [t1, t2, t3, t4, t5]) good t7).lockUntil = none := by
  have e1 : afterFailures a bad [t1] = { a with loginAttempts := 1 } := by
    simp only [afterFailures, List.foldl]
    rw [loginState_wrong_password a bad t1 hbad hbne (by simp [isLocked, hL]),
        incLoginAttempts_below a t1 hL (by simp [h0, maxLoginAttempts])]
    simp [h0]
  have e2 : afterFailures a bad [t1, t2] = { a with loginAttempts := 2 } := by
    have : afterFailures a bad [t1, t2] = loginState (afterFailures a bad [t1]) bad t2 := by
      simp [afterFailures, List.foldl]
    rw [this, e1,
        loginState_wrong_password _ bad t2 (by simpa using hbad) hbne (by simp [isLocked, hL]),
        incLoginAttempts_below _ t2 (by simpa using hL) (by simp [maxLoginAttempts])]
  have e3 : afterFailures a bad [t1, t2, t3] = { a with loginAttempts := 3 } := by
    have : afterFailures a bad [t1, t2, t3] = loginState (afterFailures a bad [t1, t2]) bad t3 := by
      simp [afterFailures, List.foldl]
    rw [this, e2,
        loginState_wrong_password _ bad t3 (by simpa using hbad) hbne (by simp [isLocked, hL]),
        incLoginAttempts_below _ t3 (by simpa using hL) (by simp [maxLoginAttempts])]
  have e4 : afterFailures a bad [t1, t2, t3, t4] = { a with loginAttempts := 4 } := by
    have : afterFailures a bad [t1, t2, t3, t4]
        = loginState (afterFailures a bad [t1, t2, t3]) bad t4 := by
      simp [afterFailures, List.foldl]
    rw [this, e3,
        loginState_wrong_password _ bad t4 (by simpa using hbad) hbne (by simp [isLocked, hL]),
        incLoginAttempts_below _ t4 (by simpa using hL) (by simp [maxLoginAttempts])]
  have e5 : afterFailures a bad [t1, t2, t3, t4, t5]
      = { a with loginAttempts := 5, lockUntil := some (t5 + lockTimeMs) } := by
    have : afterFailures a bad [t1, t2, t3, t4, t5]
        = loginState (afterFailures a bad [t1, t2, t3, t4]) bad t5 := by
      simp [afterFailures, List.foldl]
    rw [this, e4,
        loginState_wrong_password _ bad t5 (by simpa using hbad) hbne (by simp [isLocked, hL]),
        incLoginAttempts_threshold _ t5 (by simpa using hL) (by simp [maxLoginAttempts])]
  have k6 := login_locked_res { a with loginAttempts := 5, lockUntil := some (t5 + lockTimeMs) }
      good t6 (t5 + lockTimeMs) hgne rfl h6
  have hnl7 : isLocked { a with loginAttempts := 5, lockUntil := some (t5 + lockTimeMs) } t7
      = false := by
    have hge : ¬ (t7 < t5 + lockTimeMs) := by omega
    simp [isLocked, hge]
  have k7 := login_success_res { a with loginAttempts := 5, lockUntil := some (t5 + lockTimeMs) }
      good t7 hgne hnl7 (by simpa using hgood)
  refine ⟨?_, ?_, ?_, ?_, ?_, ?_, ?_, ?_, ?_, ?_, ?_, ?_⟩
  · exact loginRes_wrong_password a bad t1 hbad hbne (by simp [isLocked, hL])
  · rw [e1]
    exact loginRes_wrong_password _ bad t2 (by simpa using hbad) hbne (by simp [isLocked, hL])
  · rw [e2]
    exact loginRes_wrong_password _ bad t3 (by simpa using hbad) hbne (by simp [isLocked, hL])
  · rw [e3]
    exact loginRes_wrong_password _ bad t4 (by simpa using hbad) hbne (by simp [isLocked, hL])
  · rw [e4]
    exact loginRes_wrong_password _ bad t5 (by simpa using hbad) hbne (by simp [isLocked, hL])
  · rw [e5]
  · rw [e5]
  · rw [e5]; exact k6.1
  · rw [e5]; exact k6.2
  · rw [e5]; exact k7.1
  · rw [e5]; exact k7.2.1
  · rw [e5]; exact k7.2.2

/-- Witness for c3_five_failures_lock_then_recover on a concrete fresh
account, with failures at times 1..5, a locked correct-password attempt at
time 6, and a recovering login at time 10000000. -/
theorem c3_five_failures_lock_then_recover_witness :
    freshAcct.loginAttempts = 0 ∧
    freshAcct.lockUntil = none ∧
    bcryptCompare "Passw0rd1" freshAcct.password = true ∧
    bcryptCompare "wrong" freshAcct.password = false ∧
    (6 : Nat) < 5 + lockTimeMs ∧ 5 + lockTimeMs < 10000000 ∧
    (afterFailures freshAcct "wrong" [1, 2, 3, 4, 5]).lockUntil = some (5 + lockTimeMs) ∧
    (afterFailures freshAcct "wrong" [1, 2, 3, 4, 5]).loginAttempts = 5 ∧
    loginRes (afterFailures freshAcct "wrong" [1, 2, 3, 4, 5]) "Passw0rd1" 6
      = .failure .accountLocked ∧
    (loginState (afterFailures freshAcct "wrong" [1, 2, 3, 4, 5]) "Passw0rd1" 10000000).loginAttempts
      = 0 ∧
    (loginState (afterFailures freshAcct "wrong" [1, 2, 3, 4, 5]) "Passw0rd1" 10000000).lockUntil
      = none :=
  have h := c3_five_failures_lock_then_recover freshAcct "Passw0rd1" "wrong"
    1 2 3 4 5 6 10000000 rfl rfl (by decide) (by decide) (by decide) (by decide)
    (by decide) (by decide)
  ⟨rfl, rfl, by decide, by decide, by decide, by decide,
    h.2.2.2.2.2.1, h.2.2.2.2.2.2.1, h.2.2.2.2.2.2.2.1,
    h.2.2.2.2.2.2.2.2.2.2.1, h.2.2.2.2.2.2.2.2.2.2.2⟩

/-- Claim C10: when passwordChangedAt was never set, changedPasswordAfter
returns false for every token issuance timestamp, however early. -/
theorem c10_unset_passwordChangedAt_never_stale (a : Account)
    (h : a.passwordChangedAt = none) (ts : Nat) :
    changedPasswordAfter a ts = false := by
  simp [changedPasswordAfter, h]

/-- Witness for c10_unset_passwordChangedAt_never_stale. -/
theorem c10_unset_passwordChangedAt_never_stale_witness :
    ({ id := 3, email := "c@x.com", password := bcryptHash "Passw0rd1" }
        : Account).passwordChangedAt = none ∧
    changedPasswordAfter
      { id := 3, email := "c@x.com", password := bcryptHash "Passw0rd1" } 0 = false :=
  ⟨rfl,
    c10_unset_passwordChangedAt_never_stale
      { id := 3, email := "c@x.com", password := bcryptHash "Passw0rd1" } rfl 0⟩

/-- Claim C1 is violated by the cited code: a successful login against
leakAcct (loaded with +password +loginAttempts +lockUntil) answers with
the in-memory document in which only password was removed by
createSendToken; loginAttempts, lockUntil, and the stored reset digest and
expiry are all still serialized, because the cited schema's toJSON options
(virtuals only, no transform) strip nothing. -/
theorem c1_login_response_leaks_protected_fields :
    (login (some leakAcct) "Passw0rd1" 500000).1
      = .success (createSendTokenUser { loadForLogin leakAcct with lastLogin := some 500000 }) ∧
    (createSendTokenUser { loadForLogin leakAcct with lastLogin := some 500000 }).password
      = none ∧
    (createSendTokenUser { loadForLogin leakAcct with lastLogin := some 500000 }).loginAttempts
      = some 3 ∧
    (createSendTokenUser { loadForLogin leakAcct with lastLogin := some 500000 }).lockUntil
      = some 1000 ∧
    (createSendTokenUser { loadForLogin leakAcct with lastLogin := some 500000 }).passwordResetToken
      = some (sha256 "rt") ∧
    (createSendTokenUser { loadForLogin leakAcct with lastLogin := some 500000 }).passwordResetExpires
      = some 999999 := by
  refine ⟨by decide, rfl, rfl, rfl, rfl, rfl⟩

/-- Counterexample to claim C2: staleTok is a structurally valid refresh
token for staleAcct issued at JWT-second 10, before the password change at
second 5000 — changedPasswordAfter itself confirms the staleness — yet the
refresh call succeeds with a freshly minted pair instead of failing,
because the source performs no staleness check. -/
theorem c2_stale_refresh_succeeds_counterexample :
    changedPasswordAfter staleAcct staleTok.iat = true ∧
    jwtVerify staleTok jwtRefreshSecret 20000 = true ∧
    refreshTokenOp [staleAcct] (some staleTok) 20000
      = .success (generateToken 7 20000) (generateRefreshToken 7 20000) := by
  refine ⟨by decide, by decide, by decide⟩

/-- Claim C2 (amended form): a refresh call with a structurally valid
refresh token whose account still exists always succeeds with a freshly
minted access and refresh pair; passwordChangedAt is never consulted, so a
refresh token minted before a password change is still accepted after
it. -/
theorem c2_refresh_ignores_password_change (store : List Account) (t : SignedToken)
    (a : Account) (now : Nat)
    (hver : jwtVerify t jwtRefreshSecret now = true)
    (hfind : findById store t.sub = some a) :
    refreshTokenOp store (some t) now
      = .success (generateToken a.id now) (generateRefreshToken a.id now) := by
  simp [refreshTokenOp, hver, hfind]

/-- Witness for c2_refresh_ignores_password_change at the stale concrete
token, the worst case for the claimed staleness check. -/
theorem c2_refresh_ignores_password_change_witness :
    jwtVerify staleTok jwtRefreshSecret 20000 = true ∧
    findById [staleAcct] staleTok.sub = some staleAcct ∧
    refreshTokenOp [staleAcct] (some staleTok) 20000
      = .success (generateToken staleAcct.id 20000) (generateRefreshToken staleAcct.id 20000) :=
  ⟨by decide, by decide,
    c2_refresh_ignores_password_change [staleAcct] staleTok staleAcct 20000
      (by decide) (by decide)⟩

/-- Claim C5: with a matching, unexpired stored reset token, the first
resetPassword succeeds and the saved account has the reset digest and
expiry cleared and the bcrypt hash of the new password stored; an
immediately repeated call with the same token — at any later time and for
any new password — fails invalid-or-expired and leaves the stored state,
including the new password, unchanged. -/
theorem c5_reset_token_single_use (a : Account) (token pw pw2 : String)
    (e now now2 : Nat)
    (hTok : a.passwordResetToken = some (sha256 token))
    (hExp : a.passwordResetExpires = some e) (hNow : now < e) :
    resetPassword [a] token pw now
      = (.success (createSendTokenUser (loadDefault (afterReset a pw now))),
         [afterReset a pw now]) ∧
    (afterReset a pw now).passwordResetToken = none ∧
    (afterReset a pw now).passwordResetExpires = none ∧
    (afterReset a pw now).password = bcryptHash pw ∧
    resetPassword [afterReset a pw now] token pw2 now2
      = (.invalidOrExpired, [afterReset a pw now]) := by
  have hm : resetTokenMatches a (sha256 token) now = true := by
    simp [resetTokenMatches, hTok, hExp, hNow]
  have hm2 : resetTokenMatches (afterReset a pw now) (sha256 token) now2 = false := by
    simp [resetTokenMatches, afterReset]
  refine ⟨?_, rfl, rfl, rfl, ?_⟩
  · simp [resetPassword, findByResetToken, List.find?, hm]
  · simp [resetPassword, findByResetToken, List.find?, hm2]

/-- Witness for c5_reset_token_single_use: the stored token of
resetBoundaryAcct is consumed at time 100, then replayed at time 200. -/
theorem c5_reset_token_single_use_witness :
    resetBoundaryAcct.passwordResetToken = some (sha256 "tok") ∧
    resetBoundaryAcct.passwordResetExpires = some 600000 ∧
    (100 : Nat) < 600000 ∧
    resetPassword [resetBoundaryAcct] "tok" "NewPassw0rd1" 100
      = (.success (createSendTokenUser
            (loadDefault (afterReset resetBoundaryAcct "NewPassw0rd1" 100))),
         [afterReset resetBoundaryAcct "NewPassw0rd1" 100]) ∧
    resetPassword [afterReset resetBoundaryAcct "NewPassw0rd1" 100] "tok" "Other1aA" 200
      = (.invalidOrExpired, [afterReset resetBoundaryAcct "NewPassw0rd1" 100]) :=
  have h := c5_reset_token_single_use resetBoundaryAcct "tok" "NewPassw0rd1" "Other1aA"
    600000 100 200 rfl rfl (by decide)
  ⟨rfl, rfl, by decide, h.1, h.2.2.2.2⟩

/-- Counterexample to claim C6: the token of resetBoundaryAcct was issued
at t0 = 0 with the 10-minute TTL (expiry 600000) and is still stored with
the correct plaintext presented, yet consuming it exactly at t0 + TTL
fails invalid-or-expired: the source condition is the strict
passwordResetExpires > now, while the claim promises success at every time
up to and including t0 + TTL. -/
theorem c6_ttl_boundary_counterexample :
    resetBoundaryAcct.passwordResetToken = some (sha256 "tok") ∧
    resetBoundaryAcct.passwordResetExpires = some (0 + 600000) ∧
    (resetPassword [resetBoundaryAcct] "tok" "NewPassw0rd1" 600000).1
      = .invalidOrExpired := by
  refine ⟨rfl, rfl, by decide⟩

/-- Claim C6 (amended form), covering both secret-token kinds: for a
stored password-reset token issued at t0 with TTL ttl (stored expiry
t0 + ttl) and the correct plaintext presented, resetPassword consumption
succeeds exactly when now is strictly before t0 + ttl, and fails
invalid-or-expired from t0 + ttl onward; and for a stored
email-verification token issued at t0v with TTL ttlv and the correct
plaintext presented, verifyEmail consumption likewise succeeds exactly
when now is strictly before t0v + ttlv. -/
theorem c6_token_ttl_strict (a b : Account) (tokenR pw tokenV : String)
    (t0 ttl t0v ttlv nowR nowV : Nat)
    (hTok : a.passwordResetToken = some (sha256 tokenR))
    (hExp : a.passwordResetExpires = some (t0 + ttl))
    (hVTok : b.verificationToken = some (sha256 tokenV))
    (hVExp : b.verificationExpires = some (t0v + ttlv)) :
    ((∃ u, (resetPassword [a] tokenR pw nowR).1 = .success u) ↔ nowR < t0 + ttl) ∧
    ((verifyEmail [b] tokenV nowV).1 = .verified ↔ nowV < t0v + ttlv) := by
  constructor
  · by_cases h : nowR < t0 + ttl
    · simp [resetPassword, findByResetToken, List.find?, resetTokenMatches, hTok, hExp, h]
    · simp [resetPassword, findByResetToken, List.find?, resetTokenMatches, hTok, hExp, h]
  · by_cases h : nowV < t0v + ttlv
    · simp [verifyEmail, findByVerifyToken, List.find?, verifyTokenMatches, hVTok, hVExp, h]
    · simp [verifyEmail, findByVerifyToken, List.find?, verifyTokenMatches, hVTok, hVExp, h]

/-- Witness for c6_token_ttl_strict one millisecond before each expiry:
the 10-minute reset token at 599999 and the 24-hour verification token at
86399999. -/
theorem c6_token_ttl_strict_witness :
    resetBoundaryAcct.passwordResetToken = some (sha256 "tok") ∧
    resetBoundaryAcct.passwordResetExpires = some (0 + 600000) ∧
    verifyBoundaryAcct.verificationToken = some (sha256 "vtok") ∧
    verifyBoundaryAcct.verificationExpires = some (0 + 86400000) ∧
    (((∃ u, (resetPassword [resetBoundaryAcct] "tok" "NewPassw0rd1" 599999).1 = .success u)
        ↔ (599999 : Nat) < 0 + 600000) ∧
     ((verifyEmail [verifyBoundaryAcct] "vtok" 86399999).1 = .verified
        ↔ (86399999 : Nat) < 0 + 86400000)) :=
  ⟨rfl, rfl, rfl, rfl,
    c6_token_ttl_strict resetBoundaryAcct verifyBoundaryAcct "tok" "NewPassw0rd1" "vtok"
      0 600000 0 86400000 599999 86399999 rfl rfl rfl rfl⟩

/-- Counterexample to claim C7: a successful changePassword at
now = 10000 stores passwordChangedAt = 9000 — the pre-save hook backdates
the marker by one second — not the claimed current time 10000. -/
theorem c7_backdated_marker_counterexample :
    (changePassword freshAcct "Passw0rd1" "NewPassw0rd1" 10000).1 = .success ∧
    (changePassword freshAcct "Passw0rd1" "NewPassw0rd1" 10000).2.passwordChangedAt
      = some 9000 ∧
    (changePassword freshAcct "Passw0rd1" "NewPassw0rd1" 10000).2.passwordChangedAt
      ≠ some 10000 := by
  refine ⟨by decide, by decide, by decide⟩

/-- Claim C7 (amended form): changePassword fails with the 401
wrong-current-password error and leaves the account untouched when the
current password does not verify; on success it stores the bcrypt hash of
the new password, stamps lastPasswordChange with now, and sets
passwordChangedAt to one second before now. -/
theorem c7_change_password_behavior (a : Account) (curPw newPw : String) (now : Nat) :
    (bcryptCompare curPw a.password = false →
      changePassword a curPw newPw now = (.wrongCurrentPassword, a)) ∧
    (bcryptCompare curPw a.password = true →
      (changePassword a curPw newPw now).1 = .success ∧
      (changePassword a curPw newPw now).2.password = bcryptHash newPw ∧
      (changePassword a curPw newPw now).2.passwordChangedAt = some (now - 1000) ∧
      (changePassword a curPw newPw now).2.lastPasswordChange = some now) := by
  constructor
  · intro h; simp [changePassword, h]
  · intro h; simp [changePassword, h]

/-- Witness for c7_change_password_behavior on freshAcct, exercising both
the wrong-password branch and the success branch. -/
theorem c7_change_password_behavior_witness :
    bcryptCompare "nope" freshAcct.password = false ∧
    changePassword freshAcct "nope" "NewPassw0rd1" 10000
      = (.wrongCurrentPassword, freshAcct) ∧
    bcryptCompare "Passw0rd1" freshAcct.password = true ∧
    (changePassword freshAcct "Passw0rd1" "NewPassw0rd1" 10000).2.password
      = bcryptHash "NewPassw0rd1" ∧
    (changePassword freshAcct "Passw0rd1" "NewPassw0rd1" 10000).2.passwordChangedAt
      = some (10000 - 1000) ∧
    (changePassword freshAcct "Passw0rd1" "NewPassw0rd1" 10000).2.lastPasswordChange
      = some 10000 :=
  ⟨by decide,
   (c7_change_password_behavior freshAcct "nope" "NewPassw0rd1" 10000).1 (by decide),
   by decide,
   ((c7_change_password_behavior freshAcct "Passw0rd1" "NewPassw0rd1" 10000).2 (by decide)).2.1,
   ((c7_change_password_behavior freshAcct "Passw0rd1" "NewPassw0rd1" 10000).2 (by decide)).2.2.1,
   ((c7_change_password_behavior freshAcct "Passw0rd1" "NewPassw0rd1" 10000).2 (by decide)).2.2.2⟩

end AccountCore
